import Mathlib

/-!
memGPTs: the chat-relay backend of `src/main.js`

A shallow embedding of the request handlers of `src/main.js` and of the
functions they call.  The program is asynchronous JavaScript whose every
interesting step is a call to an outside service, so the embedding is written
in state-passing style:

* `World` is the state outside the process: the agent identifier file, the
  `story_summaries` list of the realtime database, and the trace of the
  outside calls issued so far;
* `Upstream` fixes how the outside services answer.  Every answer is indexed
  by the number of outside calls issued before it, so two calls of the same
  service may be answered differently;
* an `async function` that can throw becomes a function
  `World → Except String α × World`: the thrown `Error` is kept as its
  message, and the world is returned on both outcomes because an effect that
  was performed is not undone by a later exception.
-/

namespace MemGPTs

/-! ## JavaScript values -/

/-- JavaScript values that reach the code: JSON data and `undefined`.
Numbers are kept as integers; the code tests numbers only for truthiness. -/
inductive JVal where
  | undefined
  | null
  | bool (b : Bool)
  | num (n : Int)
  | str (s : String)
  | arr (items : List JVal)
  | obj (props : List (String × JVal))

/-- ToBoolean: `undefined`, `null`, `false`, `0` and `""` are falsy. -/
def truthy : JVal → Bool
  | .undefined => false
  | .null => false
  | .bool b => b
  | .num n => n != 0
  | .str s => s != ""
  | .arr _ => true
  | .obj _ => true

/-- The test `v === undefined`. -/
def isUndefined : JVal → Bool
  | .undefined => true
  | _ => false

/-- The test `v === text` against a string constant. -/
def strictEqStr (v : JVal) (text : String) : Bool :=
  match v with
  | .str s => s == text
  | _ => false

/-- Property read `v.name` for the property names of `main.js` (`choices`,
`message`, `content`, `agent_state`, `id`, `messages`, `function_call`,
`name`, `arguments`, `story`): none of them is an index or a member of a
built-in prototype, so the read gives the own property of an object,
`undefined` on any other value, and throws a `TypeError` on `undefined` and
`null`. -/
def getProp (v : JVal) (name : String) : Except String JVal :=
  match v with
  | .undefined => .error "TypeError"
  | .null => .error "TypeError"
  | .obj props => .ok ((props.lookup name).getD .undefined)
  | _ => .ok .undefined

/-- Element read `v[0]`. -/
def getIndex0 (v : JVal) : Except String JVal :=
  match v with
  | .undefined => .error "TypeError"
  | .null => .error "TypeError"
  | .arr items => .ok (items.headD .undefined)
  | .obj props => .ok ((props.lookup "0").getD .undefined)
  | .str s =>
    match s.data with
    | [] => .ok .undefined
    | c :: _ => .ok (.str (String.mk [c]))
  | _ => .ok .undefined

/-- WhiteSpace and LineTerminator code points of ECMAScript, the characters
`String.prototype.trim` removes. -/
def isJsWhiteSpace (c : Char) : Bool :=
  let n := c.toNat
  n == 0x09 || n == 0x0A || n == 0x0B || n == 0x0C || n == 0x0D || n == 0x20
    || n == 0xA0 || n == 0x1680 || (0x2000 ≤ n && n ≤ 0x200A)
    || n == 0x2028 || n == 0x2029 || n == 0x202F || n == 0x205F
    || n == 0x3000 || n == 0xFEFF

/-- `String.prototype.trim` on a list of characters. -/
def trimChars (cs : List Char) : List Char :=
  ((cs.dropWhile isJsWhiteSpace).reverse.dropWhile isJsWhiteSpace).reverse

/-- `String.prototype.trim`. -/
def jsTrim (s : String) : String :=
  String.mk (trimChars s.data)

/-! ## The world outside the process -/

/-- What `fs.readFile(AGENT_ID_FILE, 'utf8')` finds. -/
inductive FileState where
  /-- The file does not exist: the read rejects with code `ENOENT`. -/
  | absent
  /-- The file exists and is readable. -/
  | present (content : String)
  /-- The read rejects with any other code. -/
  | unreadable

/-- One child of `story_summaries`. -/
structure Entry where
  key : String
  summary : JVal
  timestamp : Nat

/-- An outside call issued by the process. -/
inductive Event where
  /-- `fs.readFile(AGENT_ID_FILE, 'utf8')`. -/
  | readFile
  /-- `fs.writeFile(AGENT_ID_FILE, data)` with data it accepts: a string, or
  an array, which it writes item by item. -/
  | writeFile (data : JVal)
  /-- `openai.chat.completions.create` with the story in the user prompt. -/
  | completionsCreate (story : JVal)
  /-- `db.ref('story_summaries').push().set({summary, timestamp})`. -/
  | dbSet (key : String) (summary : JVal)
  /-- The `orderByChild('timestamp').limitToLast(1).once('value')` query. -/
  | dbOnce
  /-- `POST /api/agents`, seeded with `summary` in the system message. -/
  | postAgents (summary : JVal)
  /-- `POST /api/agents/:agentId/messages`; for the role `system` the field
  `text` is the summary placed in the memory instruction. -/
  | postMessages (agentId : JVal) (text : JVal) (role : String)

/-- State outside the process. -/
structure World where
  file : FileState
  store : List Entry
  trace : List Event

/-- Record an outside call. -/
def World.log (w : World) (e : Event) : World :=
  { w with trace := w.trace ++ [e] }

/-- Answers of the outside services.  The first argument of every field is
the number of outside calls issued before the one being answered; `none`
and `false` stand for a rejected promise. -/
structure Upstream where
  /-- The completion object of `openai.chat.completions.create`. -/
  completionsCreate : Nat → JVal → Option JVal
  /-- The key generated by `push()`. -/
  pushKey : Nat → String
  /-- The server timestamp given to a successful `set`. -/
  dbSet : Nat → Option Nat
  /-- Whether the `once('value')` query resolves. -/
  dbOnce : Nat → Bool
  /-- The `response.data` of `POST /api/agents`. -/
  postAgents : Nat → JVal → Option JVal
  /-- The `response.data` of `POST /api/agents/:agentId/messages`. -/
  postMessages : Nat → JVal → JVal → String → Option JVal
  /-- Whether `fs.writeFile` resolves. -/
  writeFile : Nat → Bool
  /-- The text the file holds once `fs.writeFile` has resolved on an array:
  what its items, written one after the other, amount to. -/
  writtenChunks : Nat → List JVal → String
  /-- The state a rejected `fs.writeFile` leaves the file in, given the state
  before the call: untouched, emptied or partly written. -/
  rejectedWriteLeaves : Nat → FileState → FileState
  /-- The built-in `JSON.parse`; `none` is a thrown `SyntaxError`. -/
  jsonParse : JVal → Option JVal

/-- Lexicographic order of keys, character by character. -/
def keyLt : List Char → List Char → Bool
  | _, [] => false
  | [], _ :: _ => true
  | a :: as, b :: bs => a.toNat < b.toNat || (a.toNat == b.toNat && keyLt as bs)

/-- Whether `b` sorts after `a` in `orderByChild('timestamp')`: by timestamp,
children with equal timestamps by key. -/
def sortsAfter (a b : Entry) : Bool :=
  a.timestamp < b.timestamp || (a.timestamp == b.timestamp && keyLt a.key.data b.key.data)

/-- The child selected by `orderByChild('timestamp').limitToLast(1)`. -/
def latest : List Entry → Option Entry
  | [] => none
  | e :: es =>
    match latest es with
    | none => some e
    | some m => if sortsAfter e m then some m else some e

/-! ## The functions of `main.js` -/

/-- The expression `completion.choices[0].message.content`. -/
def completionContent (completion : JVal) : Except String JVal :=
  getProp completion "choices" >>= getIndex0 >>= (getProp · "message")
    >>= (getProp · "content")

/-- The expression `response.data.agent_state.id`. -/
def agentStateId (data : JVal) : Except String JVal :=
  getProp data "agent_state" >>= (getProp · "id")

/-- The expression `assistantMessage.function_call.arguments`. -/
def callArguments (assistantMessage : JVal) : Except String JVal :=
  getProp assistantMessage "function_call" >>= (getProp · "arguments")

/-- `summarizeStory(story)`. -/
def summarizeStory (up : Upstream) (story : JVal) (w : World) :
    Except String JVal × World :=
  let w1 := w.log (.completionsCreate story)
  match up.completionsCreate w.trace.length story with
  | none => (.error "Failed to summarize story", w1)
  | some completion =>
    match completionContent completion with
    | .error _ => (.error "Failed to summarize story", w1)
    | .ok content => (.ok content, w1)

/-- `storeStoryInDatabase(summary)`: `set` on a fresh key replaces whatever
child had that key.  The database drops a `null` property and rejects
`undefined`; here the child keeps the value it was given whenever the write
is answered as accepted, and such a value reads back falsy either way. -/
def storeStoryInDatabase (up : Upstream) (summary : JVal) (w : World) :
    Except String String × World :=
  let key := up.pushKey w.trace.length
  let w1 := w.log (.dbSet key summary)
  match up.dbSet w.trace.length with
  | none => (.error "Failed to store summary in database", w1)
  | some ts =>
    (.ok key, { w1 with store := w1.store.filter (fun e => e.key != key) ++ [⟨key, summary, ts⟩] })

/-- `getLatestSummary()`. -/
def getLatestSummary (up : Upstream) (w : World) : Except String JVal × World :=
  let w1 := w.log .dbOnce
  if up.dbOnce w.trace.length then
    match latest w.store with
    | some e => (.ok e.summary, w1)
    | none => (.ok .null, w1)
  else (.error "Failed to fetch latest summary", w1)

/-- The text a resolved `fs.writeFile(AGENT_ID_FILE, data)` leaves in the
file: the string itself, or what the items of an array amount to.  On any
other value (`undefined`, `null`, a boolean, a number, a plain object)
`fs.writeFile` throws before it touches the file: `none`. -/
def writtenText (up : Upstream) (t : Nat) : JVal → Option String
  | .str s => some s
  | .arr items => some (up.writtenChunks t items)
  | _ => none

/-- `createAgentWithMemory(summary)`: the identifier of the reply is handed to
`fs.writeFile` as it is and returned as it is. -/
def createAgentWithMemory (up : Upstream) (summary : JVal) (w : World) :
    Except String JVal × World :=
  let w1 := w.log (.postAgents summary)
  match up.postAgents w.trace.length summary with
  | none => (.error "Failed to create agent", w1)
  | some data =>
    match agentStateId data with
    | .error _ => (.error "Failed to create agent", w1)
    | .ok newAgentId =>
      match writtenText up w1.trace.length newAgentId with
      | none => (.error "Failed to create agent", w1)
      | some content =>
        let w2 := w1.log (.writeFile newAgentId)
        if up.writeFile w1.trace.length then
          (.ok newAgentId, { w2 with file := .present content })
        else
          (.error "Failed to create agent",
            { w2 with file := up.rejectedWriteLeaves w1.trace.length w.file })

/-- `updateAgentMemory(agentId, summary)`. -/
def updateAgentMemory (up : Upstream) (agentId summary : JVal) (w : World) :
    Except String Unit × World :=
  let w1 := w.log (.postMessages agentId summary "system")
  match up.postMessages w.trace.length agentId summary "system" with
  | none => (.error "Failed to update agent memory", w1)
  | some _ => (.ok (), w1)

/-- `getOrCreateAgent()`. -/
def getOrCreateAgent (up : Upstream) (w : World) : Except String JVal × World :=
  let w1 := w.log .readFile
  match w.file with
  | .present agentId => (.ok (.str (jsTrim agentId)), w1)
  | .absent =>
    match getLatestSummary up w1 with
    | (.error e, w2) => (.error e, w2)
    | (.ok summary, w2) =>
      if truthy summary then createAgentWithMemory up summary w2
      else (.ok .null, w2)
  | .unreadable => (.error "Failed to get or create agent", w1)

/-- The callback of `find` in `sendMessage`:
`msg.function_call && msg.function_call.name === 'send_message'`. -/
def isSendMessage (msg : JVal) : Except String Bool :=
  match getProp msg "function_call" with
  | .error e => .error e
  | .ok fc =>
    if truthy fc then
      match getProp fc "name" with
      | .error e => .error e
      | .ok name => .ok (strictEqStr name "send_message")
    else .ok false

/-- `messages.find(msg => ...)` of `sendMessage`. -/
def findSendMessage : List JVal → Except String JVal
  | [] => .ok .undefined
  | msg :: rest =>
    match isSendMessage msg with
    | .error e => .error e
    | .ok true => .ok msg
    | .ok false => findSendMessage rest

/-- The body of the `try` block of `sendMessage` after the request resolved
with `response.data = data`. -/
def extractReply (up : Upstream) (data : JVal) : Except String JVal :=
  if truthy data then
    match getProp data "messages" with
    | .error e => .error e
    | .ok messages =>
      if truthy messages then
        match messages with
        | .arr msgs =>
          match findSendMessage msgs with
          | .error e => .error e
          | .ok assistantMessage =>
            if truthy assistantMessage then
              match callArguments assistantMessage with
              | .error e => .error e
              | .ok arguments =>
                if truthy arguments then
                  match up.jsonParse arguments with
                  | none => .error "SyntaxError"
                  | some args => getProp args "message"
                else .error "Assistant message not found in the response"
            else .error "Assistant message not found in the response"
        | _ => .error "TypeError"
      else .error "Unexpected response format"
  else .error "Unexpected response format"

/-- `sendMessage(agentId, message)`. -/
def sendMessage (up : Upstream) (agentId message : JVal) (w : World) :
    Except String JVal × World :=
  let w1 := w.log (.postMessages agentId message "user")
  match up.postMessages w.trace.length agentId message "user" with
  | none => (.error "Failed to send message", w1)
  | some data =>
    match extractReply up data with
    | .error _ => (.error "Failed to send message", w1)
    | .ok reply => (.ok reply, w1)

/-- `updateAgentWithNewStory(newSummary)`. -/
def updateAgentWithNewStory (up : Upstream) (newSummary : JVal) (w : World) :
    Except String Unit × World :=
  match getOrCreateAgent up w with
  | (.error _, w1) => (.error "Failed to update agent with new story", w1)
  | (.ok agentId, w1) =>
    if truthy agentId then
      match updateAgentMemory up agentId newSummary w1 with
      | (.error _, w2) => (.error "Failed to update agent with new story", w2)
      | (.ok _, w2) => (.ok (), w2)
    else
      match createAgentWithMemory up newSummary w1 with
      | (.error _, w2) => (.error "Failed to update agent with new story", w2)
      | (.ok _, w2) => (.ok (), w2)

/-- `addNewStory(story)`. -/
def addNewStory (up : Upstream) (story : JVal) (w : World) :
    Except String String × World :=
  match summarizeStory up story w with
  | (.error _, w1) => (.error "Failed to add new story", w1)
  | (.ok summary, w1) =>
    match storeStoryInDatabase up summary w1 with
    | (.error _, w2) => (.error "Failed to add new story", w2)
    | (.ok summaryId, w2) =>
      match updateAgentWithNewStory up summary w2 with
      | (.error _, w3) => (.error "Failed to add new story", w3)
      | (.ok _, w3) => (.ok summaryId, w3)

/-! ## The HTTP handlers -/

/-- An HTTP response: the status and the properties of the JSON body. -/
structure Response where
  status : Nat
  body : List (String × JVal)

/-- The properties `res.json` sends: `JSON.stringify` leaves out a property
whose value is `undefined`. -/
def jsonBody (props : List (String × JVal)) : List (String × JVal) :=
  props.filter (fun p => !isUndefined p.2)

/-- Destructuring `const { name } = req.body`, with `req.body` the object
produced by `express.json()`. -/
def bodyField (body : List (String × JVal)) (name : String) : JVal :=
  (body.lookup name).getD .undefined

/-- The handler of `POST /api/chat`. -/
def chat (up : Upstream) (body : List (String × JVal)) (w : World) : Response × World :=
  let message := bodyField body "message"
  if truthy message then
    match getOrCreateAgent up w with
    | (.error e, w1) =>
      (⟨500, jsonBody [("error", .str "Internal server error"), ("details", .str e)]⟩, w1)
    | (.ok agentId, w1) =>
      if truthy agentId then
        match sendMessage up agentId message w1 with
        | (.error e, w2) =>
          (⟨500, jsonBody [("error", .str "Internal server error"), ("details", .str e)]⟩, w2)
        | (.ok response, w2) => (⟨200, jsonBody [("response", response)]⟩, w2)
      else (⟨500, jsonBody [("error", .str "Failed to create or retrieve an agent")]⟩, w1)
  else (⟨400, jsonBody [("error", .str "Message is required")]⟩, w)

/-- The handler of `POST /api/new-story`. -/
def newStory (up : Upstream) (body : List (String × JVal)) (w : World) : Response × World :=
  let story := bodyField body "story"
  if truthy story then
    match addNewStory up story w with
    | (.error e, w1) =>
      (⟨500, jsonBody [("error", .str "Failed to add new story"), ("details", .str e)]⟩, w1)
    | (.ok summaryId, w1) =>
      (⟨200, jsonBody [("success", .bool true), ("summaryId", .str summaryId)]⟩, w1)
  else (⟨400, jsonBody [("error", .str "Story is required")]⟩, w)

/-! ## Scenarios

Concrete answers of the outside services and concrete worlds, used to run the
handlers. -/

/-- A completion object whose first choice carries `content`. -/
def completionOf (content : JVal) : JVal :=
  .obj [("choices", .arr [.obj [("message",
    .obj [("role", .str "assistant"), ("content", content)])]])]

/-- A reply entry calling `send_message` with the given `arguments`. -/
def sendMessageCall (arguments : JVal) : JVal :=
  .obj [("function_call", .obj [("name", .str "send_message"), ("arguments", arguments)])]

/-- A reply of the agent service with the given messages. -/
def replyOf (messages : List JVal) : JVal :=
  .obj [("messages", .arr messages)]

/-- `JSON.parse` on the few texts the scenarios use (numbers are converted to
their text first); every other text is left unparsed. -/
def parseScenarioText (v : JVal) : Option JVal :=
  match v with
  | .str s =>
    if s == "null" then some .null
    else if s == "\x7b\x7d" then some (.obj [])
    else if s == "\x7b\"message\":\"Hello\"\x7d" then some (.obj [("message", .str "Hello")])
    else if s == "\x7b\"message\":42\x7d" then some (.obj [("message", .num 42)])
    else none
  | .num n => some (.num n)
  | _ => none

/-- The text of the items that are strings, one after the other. -/
def joinTextChunks : List JVal → String
  | [] => ""
  | .str s :: rest => s ++ joinTextChunks rest
  | _ :: rest => joinTextChunks rest

/-- Every outside call succeeds: the summary is "A short tale.", the agent
service creates `agent-1` and answers "Hello". -/
def upOk : Upstream where
  completionsCreate := fun _ _ => some (completionOf (.str "A short tale."))
  pushKey := fun _ => "-Nk1"
  dbSet := fun _ => some 1700
  dbOnce := fun _ => true
  postAgents := fun _ _ => some (.obj [("agent_state", .obj [("id", .str "agent-1")])])
  postMessages := fun _ _ _ _ =>
    some (replyOf [sendMessageCall (.str "\x7b\"message\":\"Hello\"\x7d")])
  writeFile := fun _ => true
  writtenChunks := fun _ items => joinTextChunks items
  rejectedWriteLeaves := fun _ file => file
  jsonParse := parseScenarioText

/-- As `upOk`, with the agent service creating an agent whose identifier is
the array of the two texts `agent-` and `7`. -/
def upArrayIdentifier : Upstream :=
  { upOk with
    postAgents := fun _ _ =>
      some (.obj [("agent_state", .obj [("id", .arr [.str "agent-", .str "7"])])]) }

/-- As `upOk`, with the agent service answering every message with `data`. -/
def upReply (data : JVal) : Upstream :=
  { upOk with postMessages := fun _ _ _ _ => some data }

/-- No identifier file, empty summary store, nothing issued yet. -/
def freshWorld : World := ⟨.absent, [], []⟩

/-- An identifier file with the given content, empty summary store. -/
def worldWithFile (content : String) : World := ⟨.present content, [], []⟩

/-- No identifier file, the given children in the summary store. -/
def worldWithStore (store : List Entry) : World := ⟨.absent, store, []⟩

/-- The `messages` array of a reply of the agent service; empty when the
reply has no such array. -/
def replyMessages (data : JVal) : List JVal :=
  match getProp data "messages" with
  | .ok (.arr msgs) => msgs
  | _ => []

/-- Whether the outside call belongs to the agent step of `addNewStory`: a
read or write of the identifier file, the query of the summary store, or a
request to the agent service. -/
def isAgentStep : Event → Bool
  | .completionsCreate _ => false
  | .dbSet _ _ => false
  | _ => true

/-- The world once `addNewStory` has summarized `story` to `summary` and the
database has stored it with timestamp `ts`. -/
def storedWorld (up : Upstream) (story summary : JVal) (ts : Nat) (w : World) : World :=
  ⟨w.file,
    w.store.filter (fun e => e.key != up.pushKey (w.trace.length + 1))
      ++ [⟨up.pushKey (w.trace.length + 1), summary, ts⟩],
    w.trace ++ [.completionsCreate story, .dbSet (up.pushKey (w.trace.length + 1)) summary]⟩

/-- Whether every character of the text is white space. -/
def isBlank (s : String) : Bool :=
  s.data.all isJsWhiteSpace

/-! ## Basic facts -/

theorem truthy_str_iff (s : String) : truthy (.str s) = true ↔ s ≠ "" := by
  simp [truthy]

theorem truthy_undefined : truthy .undefined = false := rfl

theorem truthy_empty : truthy (.str "") = false := by
  simp [truthy]

theorem bodyField_absent (body : List (String × JVal)) (name : String)
    (h : body.lookup name = none) : bodyField body name = .undefined := by
  simp [bodyField, h]

theorem bodyField_present (body : List (String × JVal)) (name : String) (v : JVal)
    (h : body.lookup name = some v) : bodyField body name = v := by
  simp [bodyField, h]

/-- A falsy `message` is answered 400 and the world is left as it was. -/
theorem chat_falsy (up : Upstream) (body : List (String × JVal)) (w : World)
    (h : truthy (bodyField body "message") = false) :
    chat up body w = (⟨400, [("error", .str "Message is required")]⟩, w) := by
  simp [chat, h, jsonBody, isUndefined]

/-- A falsy `story` is answered 400 and the world is left as it was. -/
theorem newStory_falsy (up : Upstream) (body : List (String × JVal)) (w : World)
    (h : truthy (bodyField body "story") = false) :
    newStory up body w = (⟨400, [("error", .str "Story is required")]⟩, w) := by
  simp [newStory, h, jsonBody, isUndefined]

/-! ## Validation -/

/-- C2: a request to `POST /api/chat` whose `message` is absent or empty is
answered with status 400 and body `error: "Message is required"`, a request
to `POST /api/new-story` whose `story` is absent or empty is answered with
status 400, and in both cases the world after the request is the world before
it: the trace of outside calls, the identifier file and the summary store are
untouched. -/
theorem validation_rejects_without_effect (up : Upstream)
    (body : List (String × JVal)) (w : World) :
    ((body.lookup "message" = none ∨ body.lookup "message" = some (.str "")) →
      chat up body w = (⟨400, [("error", .str "Message is required")]⟩, w)) ∧
    ((body.lookup "story" = none ∨ body.lookup "story" = some (.str "")) →
      newStory up body w = (⟨400, [("error", .str "Story is required")]⟩, w)) := by
  constructor
  · intro h
    apply chat_falsy
    rcases h with h | h
    · rw [bodyField_absent body _ h]; rfl
    · rw [bodyField_present body _ _ h]; exact truthy_empty
  · intro h
    apply newStory_falsy
    rcases h with h | h
    · rw [bodyField_absent body _ h]; rfl
    · rw [bodyField_present body _ _ h]; exact truthy_empty

/-- Witness of C2: an empty body sent to `/api/chat` and an empty `story`
sent to `/api/new-story`, with every outside service ready to succeed. -/
theorem validation_rejects_without_effect_witness :
    ([("story", JVal.str "")].lookup "message" = none ∧
      chat upOk [("story", .str "")] freshWorld
        = (⟨400, [("error", .str "Message is required")]⟩, freshWorld)) ∧
    ([("story", JVal.str "")].lookup "story" = some (.str "") ∧
      newStory upOk [("story", .str "")] freshWorld
        = (⟨400, [("error", .str "Story is required")]⟩, freshWorld)) :=
  ⟨⟨rfl, (validation_rejects_without_effect upOk [("story", .str "")] freshWorld).1
      (Or.inl rfl)⟩,
    ⟨rfl, (validation_rejects_without_effect upOk [("story", .str "")] freshWorld).2
      (Or.inr rfl)⟩⟩

/-! ## Resolving the agent -/

@[simp] theorem log_file (w : World) (e : Event) : (w.log e).file = w.file := rfl

@[simp] theorem log_store (w : World) (e : Event) : (w.log e).store = w.store := rfl

@[simp] theorem log_trace (w : World) (e : Event) : (w.log e).trace = w.trace ++ [e] := rfl

theorem log_trace_length (w : World) (e : Event) :
    (w.log e).trace.length = w.trace.length + 1 := by
  simp

theorem trimChars_blank (cs : List Char) (h : cs.all isJsWhiteSpace = true) :
    trimChars cs = [] := by
  have h1 : cs.dropWhile isJsWhiteSpace = [] := by
    rw [List.dropWhile_eq_nil_iff]
    intro c hc
    exact (List.all_eq_true.mp h) c hc
  simp [trimChars, h1]

theorem jsTrim_blank (s : String) (h : isBlank s = true) : jsTrim s = "" := by
  unfold jsTrim
  rw [trimChars_blank s.data h]

/-- What `dropWhile` stops at does not satisfy the test. -/
theorem head_dropWhile_false (p : Char → Bool) (cs : List Char) (c : Char)
    (h : (cs.dropWhile p).head? = some c) : p c = false := by
  induction cs with
  | nil => simp at h
  | cons x xs ih =>
    by_cases hx : p x = true
    · rw [List.dropWhile_cons_of_pos hx] at h
      exact ih h
    · rw [List.dropWhile_cons_of_neg hx] at h
      simp only [List.head?_cons, Option.some.injEq] at h
      rw [← h]
      simpa using hx

/-- What is left after the leading white space splits into the trimmed text
and the trailing white space. -/
theorem dropWhile_eq_trimChars_append (cs : List Char) :
    cs.dropWhile isJsWhiteSpace
      = trimChars cs ++ ((cs.dropWhile isJsWhiteSpace).reverse.takeWhile isJsWhiteSpace).reverse := by
  unfold trimChars
  rw [← List.reverse_append, List.takeWhile_append_dropWhile, List.reverse_reverse]

/-- `trimChars` removes exactly the white space around the text: the input is
white space, then the result, then white space, and the result neither starts
nor ends with white space. -/
theorem trimChars_spec (cs : List Char) :
    ∃ pre post, cs = pre ++ trimChars cs ++ post ∧
      (∀ c ∈ pre, isJsWhiteSpace c = true) ∧ (∀ c ∈ post, isJsWhiteSpace c = true) ∧
      (∀ c, (trimChars cs).head? = some c → isJsWhiteSpace c = false) ∧
      (∀ c, (trimChars cs).getLast? = some c → isJsWhiteSpace c = false) := by
  refine ⟨cs.takeWhile isJsWhiteSpace,
    ((cs.dropWhile isJsWhiteSpace).reverse.takeWhile isJsWhiteSpace).reverse, ?_, ?_, ?_, ?_, ?_⟩
  · rw [List.append_assoc, ← dropWhile_eq_trimChars_append cs]
    exact (List.takeWhile_append_dropWhile isJsWhiteSpace cs).symm
  · intro c hc
    exact List.mem_takeWhile_imp hc
  · intro c hc
    exact List.mem_takeWhile_imp (List.mem_reverse.mp hc)
  · intro c hc
    apply head_dropWhile_false isJsWhiteSpace cs c
    rw [dropWhile_eq_trimChars_append cs]
    cases hm : trimChars cs with
    | nil => rw [hm] at hc; simp at hc
    | cons x xs => rw [hm] at hc; simpa using hc
  · intro c hc
    unfold trimChars at hc
    rw [List.getLast?_reverse] at hc
    exact head_dropWhile_false isJsWhiteSpace _ c hc

/-- With the identifier file present, `getOrCreateAgent` reads it and returns
the trimmed content; nothing else happens. -/
theorem getOrCreateAgent_present (up : Upstream) (w : World) (content : String)
    (hfile : w.file = .present content) :
    getOrCreateAgent up w = (.ok (.str (jsTrim content)), w.log .readFile) := by
  simp [getOrCreateAgent, hfile]

/-- With no identifier file and an empty summary store, `getOrCreateAgent`
reads the file, queries the store and stops. -/
theorem getOrCreateAgent_absent_empty (up : Upstream) (w : World)
    (hfile : w.file = .absent) (hstore : w.store = []) :
    getOrCreateAgent up w =
      (if up.dbOnce (w.trace.length + 1) then .ok .null
        else .error "Failed to fetch latest summary", (w.log .readFile).log .dbOnce) := by
  cases h : up.dbOnce (w.trace.length + 1) <;>
    simp [getOrCreateAgent, hfile, getLatestSummary, hstore, latest, h, truthy]

/-- C4: a chat request with a truthy (so non-empty) message, made when the
identifier file does not exist and the summary store is empty, is answered
with status 500 and a body with an `error` field; the only outside calls are
the read of the identifier file and the query of the summary store, so no
agent is created, no message is sent, and the identifier file is still
absent afterwards. -/
theorem chat_without_agent_or_summary (up : Upstream) (body : List (String × JVal))
    (w : World) (hmsg : truthy (bodyField body "message") = true)
    (hfile : w.file = .absent) (hstore : w.store = []) :
    (chat up body w).1.status = 500 ∧
    (∃ e, (chat up body w).1.body.lookup "error" = some (.str e)) ∧
    (chat up body w).2.trace = w.trace ++ [.readFile, .dbOnce] ∧
    (chat up body w).2.file = .absent ∧
    (chat up body w).2.store = [] := by
  simp only [chat, hmsg, if_true, getOrCreateAgent_absent_empty up w hfile hstore]
  cases up.dbOnce (w.trace.length + 1) <;>
    simp [truthy, jsonBody, isUndefined, hfile, hstore, List.lookup]

/-- Witness of C4: "hi" sent to a fresh deployment. -/
theorem chat_without_agent_or_summary_witness :
    truthy (bodyField [("message", .str "hi")] "message") = true ∧
    (chat upOk [("message", .str "hi")] freshWorld).1.status = 500 ∧
    (chat upOk [("message", .str "hi")] freshWorld).2.trace = [.readFile, .dbOnce] :=
  have h := chat_without_agent_or_summary upOk [("message", .str "hi")] freshWorld rfl rfl rfl
  ⟨rfl, h.1, h.2.2.1⟩

/-- The three outcomes of `createAgentWithMemory`: the request, the reading of
its reply or the handing of the identifier to `fs.writeFile` fails; the write
of the identifier file is rejected; or the identifier of the reply is written
to the file and returned. -/
theorem createAgentWithMemory_cases (up : Upstream) (summary : JVal) (w : World) :
    createAgentWithMemory up summary w
        = (.error "Failed to create agent", w.log (.postAgents summary)) ∨
    (∃ data id, up.postAgents w.trace.length summary = some data ∧
      agentStateId data = .ok id ∧
      createAgentWithMemory up summary w
        = (.error "Failed to create agent",
            ⟨up.rejectedWriteLeaves (w.trace.length + 1) w.file, w.store,
              w.trace ++ [.postAgents summary, .writeFile id]⟩)) ∨
    (∃ data id content, up.postAgents w.trace.length summary = some data ∧
      agentStateId data = .ok id ∧
      writtenText up (w.trace.length + 1) id = some content ∧
      up.writeFile (w.trace.length + 1) = true ∧
      createAgentWithMemory up summary w
        = (.ok id,
            ⟨.present content, w.store,
              w.trace ++ [.postAgents summary, .writeFile id]⟩)) := by
  cases hpost : up.postAgents w.trace.length summary with
  | none => left; simp [createAgentWithMemory, hpost]
  | some data =>
    cases hid : agentStateId data with
    | error e => left; simp [createAgentWithMemory, hpost, hid]
    | ok id =>
      cases htext : writtenText up (w.trace.length + 1) id with
      | none => left; simp [createAgentWithMemory, hpost, hid, htext]
      | some content =>
        cases hw : up.writeFile (w.trace.length + 1) with
        | false =>
          right; left
          exact ⟨data, id, rfl, hid,
            by simp [createAgentWithMemory, hpost, hid, htext, hw, World.log]⟩
        | true =>
          right; right
          exact ⟨data, id, content, rfl, hid, htext, rfl,
            by simp [createAgentWithMemory, hpost, hid, htext, hw, World.log]⟩

/-- A successful `createAgentWithMemory` whose reply carries a string. -/
theorem createAgentWithMemory_ok (up : Upstream) (summary : JVal) (w : World)
    (data : JVal) (id : String)
    (hpost : up.postAgents w.trace.length summary = some data)
    (hid : agentStateId data = .ok (.str id))
    (hwrite : up.writeFile (w.trace.length + 1) = true) :
    createAgentWithMemory up summary w
      = (.ok (.str id),
          ⟨.present id, w.store, w.trace ++ [.postAgents summary, .writeFile (.str id)]⟩) := by
  simp [createAgentWithMemory, hpost, hid, hwrite, writtenText, World.log]

/-- C10: when the identifier file exists, `getOrCreateAgent` returns its
content with the surrounding white space trimmed (the content is white
space, then the returned text, then white space, and the returned text
neither starts nor ends with white space) and issues no outside call but the
read of the file (no query of the summary store, no creation of an agent),
whatever the content.  When the content is blank, a chat request with a
truthy message is therefore answered 500 `Failed to create or retrieve an
agent` after that single read, whatever the summary store holds, while
`updateAgentWithNewStory` in the same state calls `POST /api/agents` seeded
with the new summary and, when that call returns an identifier and the write
succeeds, leaves the identifier in the file in place of the blank content. -/
theorem identifier_file_short_circuits (up : Upstream) (w : World) (content : String)
    (hfile : w.file = .present content) :
    getOrCreateAgent up w = (.ok (.str (jsTrim content)), w.log .readFile) ∧
    (∃ pre post, content.data = pre ++ (jsTrim content).data ++ post ∧
      (∀ c ∈ pre, isJsWhiteSpace c = true) ∧ (∀ c ∈ post, isJsWhiteSpace c = true) ∧
      (∀ c, (jsTrim content).data.head? = some c → isJsWhiteSpace c = false) ∧
      (∀ c, (jsTrim content).data.getLast? = some c → isJsWhiteSpace c = false)) ∧
    (isBlank content = true →
      (∀ body, truthy (bodyField body "message") = true →
        chat up body w
          = (⟨500, [("error", .str "Failed to create or retrieve an agent")]⟩,
              w.log .readFile)) ∧
      (∀ newSummary,
        (∃ rest, (updateAgentWithNewStory up newSummary w).2.trace
            = w.trace ++ [.readFile, .postAgents newSummary] ++ rest) ∧
        (∀ data id, up.postAgents (w.trace.length + 1) newSummary = some data →
          agentStateId data = .ok (.str id) →
          up.writeFile (w.trace.length + 2) = true →
          updateAgentWithNewStory up newSummary w
            = (.ok (), ⟨.present id, w.store,
                w.trace ++ [.readFile, .postAgents newSummary, .writeFile (.str id)]⟩)))) := by
  refine ⟨getOrCreateAgent_present up w content hfile, trimChars_spec content.data,
    fun hblank => ⟨?_, ?_⟩⟩
  · intro body hmsg
    simp [chat, hmsg, getOrCreateAgent_present up w content hfile, jsTrim_blank content hblank,
      truthy_empty, jsonBody, isUndefined]
  · intro newSummary
    have hagent : getOrCreateAgent up w = (.ok (.str ""), w.log .readFile) := by
      rw [getOrCreateAgent_present up w content hfile, jsTrim_blank content hblank]
    constructor
    · simp only [updateAgentWithNewStory, hagent, truthy_empty]
      rcases createAgentWithMemory_cases up newSummary (w.log .readFile) with h |
          ⟨data, id, _, _, h⟩ | ⟨data, id, text, _, _, _, _, h⟩
      · exact ⟨[], by simp [h]⟩
      · exact ⟨[.writeFile id], by simp [h]⟩
      · exact ⟨[.writeFile id], by simp [h]⟩
    · intro data id hpost hid hwrite
      have hc := createAgentWithMemory_ok up newSummary (w.log .readFile) data id
        (by simpa using hpost) hid (by simpa using hwrite)
      simp [updateAgentWithNewStory, hagent, truthy_empty, hc]

/-- Witness of C10: an identifier file holding `agent-0` between two spaces
and a line feed, and one holding only a space and a line feed. -/
theorem identifier_file_short_circuits_witness :
    getOrCreateAgent upOk (worldWithFile "  agent-0\n")
      = (.ok (.str "agent-0"), ⟨.present "  agent-0\n", [], [.readFile]⟩) ∧
    isBlank " \n" = true ∧
    getOrCreateAgent upOk (worldWithFile " \n") = (.ok (.str ""), ⟨.present " \n", [], [.readFile]⟩) ∧
    chat upOk [("message", .str "hi")] (worldWithFile " \n")
      = (⟨500, [("error", .str "Failed to create or retrieve an agent")]⟩,
          ⟨.present " \n", [], [.readFile]⟩) ∧
    updateAgentWithNewStory upOk (.str "A short tale.") (worldWithFile " \n")
      = (.ok (), ⟨.present "agent-1", [],
          [.readFile, .postAgents (.str "A short tale."), .writeFile (.str "agent-1")]⟩) :=
  have h := identifier_file_short_circuits upOk (worldWithFile " \n") " \n" rfl
  ⟨(identifier_file_short_circuits upOk (worldWithFile "  agent-0\n") "  agent-0\n" rfl).1,
    rfl, h.1, (h.2.2 rfl).1 [("message", .str "hi")] rfl,
    ((h.2.2 rfl).2 (.str "A short tale.")).2 _ "agent-1" rfl rfl rfl⟩

/-! ## Talking to the agent -/

/-- The world after `sendMessage`: one request was issued. -/
theorem sendMessage_world (up : Upstream) (agentId message : JVal) (w : World) :
    (sendMessage up agentId message w).2 = w.log (.postMessages agentId message "user") := by
  cases hp : up.postMessages w.trace.length agentId message "user" with
  | none => simp [sendMessage, hp]
  | some data => cases hx : extractReply up data <;> simp [sendMessage, hp, hx]

/-- Every failure of `sendMessage` carries the same message. -/
theorem sendMessage_error (up : Upstream) (agentId message : JVal) (w : World) (e : String)
    (h : (sendMessage up agentId message w).1 = .error e) : e = "Failed to send message" := by
  unfold sendMessage at h
  cases hp : up.postMessages w.trace.length agentId message "user" with
  | none => simp [hp] at h; exact h.symm
  | some data =>
    cases hx : extractReply up data with
    | error x => simp [hp, hx] at h; exact h.symm
    | ok v => simp [hp, hx] at h

/-- The result of `sendMessage` once the request resolved with `data`. -/
theorem sendMessage_resolved (up : Upstream) (agentId message : JVal) (w : World) (data : JVal)
    (hpost : up.postMessages w.trace.length agentId message "user" = some data) :
    sendMessage up agentId message w =
      (match extractReply up data with
        | .error _ => .error "Failed to send message"
        | .ok reply => .ok reply,
       w.log (.postMessages agentId message "user")) := by
  simp only [sendMessage, hpost]
  cases extractReply up data <;> rfl

/-- When no entry is a `send_message` call, `find` throws or finds nothing. -/
theorem findSendMessage_none (msgs : List JVal)
    (h : ∀ m ∈ msgs, isSendMessage m ≠ .ok true) :
    findSendMessage msgs = .ok .undefined ∨ ∃ e, findSendMessage msgs = .error e := by
  induction msgs with
  | nil => left; rfl
  | cons m ms ih =>
    have hm := h m (List.mem_cons_self m ms)
    have hms := ih (fun x hx => h x (List.mem_cons_of_mem m hx))
    unfold findSendMessage
    cases hi : isSendMessage m with
    | error e => right; exact ⟨e, rfl⟩
    | ok b =>
      cases b with
      | true => exact absurd hi hm
      | false => simpa using hms

/-- An entry that is a `send_message` call is an object, hence truthy. -/
theorem isSendMessage_truthy (m : JVal) (h : isSendMessage m = .ok true) : truthy m = true := by
  cases m <;> simp [isSendMessage, getProp, truthy] at h ⊢

/-- A reply with a non-empty `messages` array is an object carrying it. -/
theorem replyMessages_cons (data m : JVal) (ms : List JVal)
    (h : replyMessages data = m :: ms) :
    truthy data = true ∧ getProp data "messages" = .ok (.arr (m :: ms)) := by
  unfold replyMessages at h
  cases data with
  | obj props =>
    refine ⟨rfl, ?_⟩
    cases hg : getProp (.obj props) "messages" with
    | error e => simp [hg] at h
    | ok v =>
      cases v <;> simp [hg] at h
      rw [h]
  | _ => simp [getProp] at h

/-- What `extractReply` does once `find` has returned the entry `m`. -/
theorem extractReply_found (up : Upstream) (data m : JVal)
    (hfind : findSendMessage (replyMessages data) = .ok m)
    (hm : isSendMessage m = .ok true) :
    extractReply up data =
      (match callArguments m with
        | .error e => .error e
        | .ok arguments =>
          if truthy arguments then
            match up.jsonParse arguments with
            | none => .error "SyntaxError"
            | some args => getProp args "message"
          else .error "Assistant message not found in the response") := by
  cases hr : replyMessages data with
  | nil =>
    rw [hr] at hfind
    simp only [findSendMessage, Except.ok.injEq] at hfind
    rw [← hfind] at hm
    simp [isSendMessage, getProp] at hm
  | cons x xs =>
    obtain ⟨hd, hg⟩ := replyMessages_cons data x xs hr
    rw [hr] at hfind
    have ha : truthy (.arr (x :: xs)) = true := rfl
    simp only [extractReply, hd, if_true, hg, ha, hfind, isSendMessage_truthy m hm]

/-- Without a `send_message` call among the messages, `extractReply` throws. -/
theorem extractReply_no_call (up : Upstream) (data : JVal)
    (h : ∀ m ∈ replyMessages data, isSendMessage m ≠ .ok true) (v : JVal) :
    extractReply up data ≠ .ok v := by
  cases hd : truthy data with
  | false => simp [extractReply, hd]
  | true =>
    cases hg : getProp data "messages" with
    | error e => simp [extractReply, hd, hg]
    | ok messages =>
      cases hm : truthy messages with
      | false => simp [extractReply, hd, hg, hm]
      | true =>
        cases messages with
        | arr msgs =>
          have hr : replyMessages data = msgs := by simp [replyMessages, hg]
          rw [hr] at h
          rcases findSendMessage_none msgs h with hf | ⟨e, hf⟩
          · simp [extractReply, hd, hg, hm, hf, truthy_undefined]
          · simp [extractReply, hd, hg, hm, hf]
        | _ => simp [extractReply, hd, hg, hm]

/-- C6, as the code has it: after the request resolved with `data`, (1) if no
entry of the reply's messages is a `send_message` call, `sendMessage` fails
with `Failed to send message`; (2) if `find` returns such an entry and
`JSON.parse` rejects its `arguments`, `sendMessage` fails with the same error;
(3) if `find` returns such an entry, its `arguments` are truthy and
`JSON.parse` turns them into a value whose `message` property can be read,
`sendMessage` returns that property.  In all three cases the only outside
call is the request itself. -/
theorem sendMessage_reply_contract (up : Upstream) (agentId message : JVal) (w : World)
    (data : JVal)
    (hpost : up.postMessages w.trace.length agentId message "user" = some data) :
    ((∀ m ∈ replyMessages data, isSendMessage m ≠ .ok true) →
      sendMessage up agentId message w
        = (.error "Failed to send message", w.log (.postMessages agentId message "user"))) ∧
    (∀ m arguments, findSendMessage (replyMessages data) = .ok m →
      isSendMessage m = .ok true → callArguments m = .ok arguments →
      up.jsonParse arguments = none →
      sendMessage up agentId message w
        = (.error "Failed to send message", w.log (.postMessages agentId message "user"))) ∧
    (∀ m arguments args reply, findSendMessage (replyMessages data) = .ok m →
      isSendMessage m = .ok true → callArguments m = .ok arguments →
      truthy arguments = true → up.jsonParse arguments = some args →
      getProp args "message" = .ok reply →
      sendMessage up agentId message w
        = (.ok reply, w.log (.postMessages agentId message "user"))) := by
  refine ⟨?_, ?_, ?_⟩
  · intro h
    rw [sendMessage_resolved up agentId message w data hpost]
    cases he : extractReply up data with
    | error e => rfl
    | ok v => exact absurd he (extractReply_no_call up data h v)
  · intro m arguments hfind hm hargs hparse
    rw [sendMessage_resolved up agentId message w data hpost,
      extractReply_found up data m hfind hm, hargs]
    cases ht : truthy arguments <;> simp [ht, hparse]
  · intro m arguments args reply hfind hm hargs htruthy hparse hreply
    rw [sendMessage_resolved up agentId message w data hpost,
      extractReply_found up data m hfind hm, hargs]
    simp [htruthy, hparse, hreply]

/-- Witness of C6: a reply without any call, a reply whose call carries text
that is not JSON, and a reply whose call carries `message: "Hello"`. -/
theorem sendMessage_reply_contract_witness :
    sendMessage (upReply (replyOf [.obj [("role", .str "assistant")]])) (.str "agent-0")
        (.str "hi") (worldWithFile "agent-0")
      = (.error "Failed to send message",
          (worldWithFile "agent-0").log (.postMessages (.str "agent-0") (.str "hi") "user")) ∧
    sendMessage (upReply (replyOf [sendMessageCall (.str "oops")])) (.str "agent-0")
        (.str "hi") (worldWithFile "agent-0")
      = (.error "Failed to send message",
          (worldWithFile "agent-0").log (.postMessages (.str "agent-0") (.str "hi") "user")) ∧
    sendMessage upOk (.str "agent-0") (.str "hi") (worldWithFile "agent-0")
      = (.ok (.str "Hello"),
          (worldWithFile "agent-0").log (.postMessages (.str "agent-0") (.str "hi") "user")) :=
  ⟨(sendMessage_reply_contract (upReply (replyOf [.obj [("role", .str "assistant")]]))
      (.str "agent-0") (.str "hi") (worldWithFile "agent-0") _ rfl).1
      (by
        intro m hm
        rw [List.mem_singleton.mp hm,
          show isSendMessage (.obj [("role", .str "assistant")]) = .ok false from rfl]
        simp),
    (sendMessage_reply_contract (upReply (replyOf [sendMessageCall (.str "oops")]))
      (.str "agent-0") (.str "hi") (worldWithFile "agent-0") _ rfl).2.1
      (sendMessageCall (.str "oops")) (.str "oops") rfl rfl rfl rfl,
    (sendMessage_reply_contract upOk (.str "agent-0") (.str "hi") (worldWithFile "agent-0") _
      rfl).2.2 (sendMessageCall (.str "\x7b\"message\":\"Hello\"\x7d"))
      (.str "\x7b\"message\":\"Hello\"\x7d") (.obj [("message", .str "Hello")])
      (.str "Hello") rfl rfl rfl rfl rfl rfl⟩

/-- Counterexample to C6: in each of three replies an entry is a
`send_message` call and `JSON.parse` accepts its `arguments`, yet
`sendMessage` fails instead of returning the `message` argument: the
arguments are the text `null`; an entry `null` stands before the call; the
arguments are the number `0`. -/
theorem sendMessage_parseable_call_fails :
    (isSendMessage (sendMessageCall (.str "null")) = .ok true ∧
      parseScenarioText (.str "null") = some .null ∧
      sendMessage (upReply (replyOf [sendMessageCall (.str "null")])) (.str "agent-0")
          (.str "hi") (worldWithFile "agent-0")
        = (.error "Failed to send message",
            ⟨.present "agent-0", [],
              [.postMessages (.str "agent-0") (.str "hi") "user"]⟩)) ∧
    (isSendMessage (sendMessageCall (.str "\x7b\"message\":\"Hello\"\x7d")) = .ok true ∧
      parseScenarioText (.str "\x7b\"message\":\"Hello\"\x7d")
        = some (.obj [("message", .str "Hello")]) ∧
      sendMessage
          (upReply (replyOf [.null, sendMessageCall (.str "\x7b\"message\":\"Hello\"\x7d")]))
          (.str "agent-0") (.str "hi") (worldWithFile "agent-0")
        = (.error "Failed to send message",
            ⟨.present "agent-0", [],
              [.postMessages (.str "agent-0") (.str "hi") "user"]⟩)) ∧
    (isSendMessage (sendMessageCall (.num 0)) = .ok true ∧
      parseScenarioText (.num 0) = some (.num 0) ∧
      sendMessage (upReply (replyOf [sendMessageCall (.num 0)])) (.str "agent-0")
          (.str "hi") (worldWithFile "agent-0")
        = (.error "Failed to send message",
            ⟨.present "agent-0", [],
              [.postMessages (.str "agent-0") (.str "hi") "user"]⟩)) :=
  ⟨⟨rfl, rfl, rfl⟩, ⟨rfl, rfl, rfl⟩, ⟨rfl, rfl, rfl⟩⟩

/-! ## The chat handler -/

/-- The four ways a validated chat request ends. -/
theorem chat_cases (up : Upstream) (body : List (String × JVal)) (w : World)
    (hmsg : truthy (bodyField body "message") = true) :
    (∃ e w1, getOrCreateAgent up w = (.error e, w1) ∧
      chat up body w
        = (⟨500, [("error", .str "Internal server error"), ("details", .str e)]⟩, w1)) ∨
    (∃ agentId w1, getOrCreateAgent up w = (.ok agentId, w1) ∧ truthy agentId = false ∧
      chat up body w
        = (⟨500, [("error", .str "Failed to create or retrieve an agent")]⟩, w1)) ∨
    (∃ agentId w1 e w2, getOrCreateAgent up w = (.ok agentId, w1) ∧ truthy agentId = true ∧
      sendMessage up agentId (bodyField body "message") w1 = (.error e, w2) ∧
      chat up body w
        = (⟨500, [("error", .str "Internal server error"), ("details", .str e)]⟩, w2)) ∨
    (∃ agentId w1 reply w2, getOrCreateAgent up w = (.ok agentId, w1) ∧
      truthy agentId = true ∧
      sendMessage up agentId (bodyField body "message") w1 = (.ok reply, w2) ∧
      chat up body w = (⟨200, jsonBody [("response", reply)]⟩, w2)) := by
  rcases hg : getOrCreateAgent up w with ⟨e | agentId, w1⟩
  · left
    exact ⟨e, w1, rfl, by simp [chat, hmsg, hg, jsonBody, isUndefined]⟩
  · cases ht : truthy agentId with
    | false =>
      right; left
      exact ⟨agentId, w1, rfl, ht, by simp [chat, hmsg, hg, ht, jsonBody, isUndefined]⟩
    | true =>
      rcases hs : sendMessage up agentId (bodyField body "message") w1 with ⟨e | reply, w2⟩
      · right; right; left
        exact ⟨agentId, w1, e, w2, rfl, ht, hs,
          by simp [chat, hmsg, hg, ht, hs, jsonBody, isUndefined]⟩
      · right; right; right
        exact ⟨agentId, w1, reply, w2, rfl, ht, hs, by simp [chat, hmsg, hg, ht, hs]⟩

/-- C5, as the code has it: a chat request with a truthy (so non-empty)
message is answered either with status 200 and the body `response: reply`,
where `reply` is whatever `sendMessage` returned for the resolved agent (the
field is left out of the body when `reply` is `undefined`, and `reply` need
not be a string), or with status 500 and a body with a string `error`
field. -/
theorem chat_response_shape (up : Upstream) (body : List (String × JVal)) (w : World)
    (hmsg : truthy (bodyField body "message") = true) :
    (∃ agentId w1 reply w2, getOrCreateAgent up w = (.ok agentId, w1) ∧
      truthy agentId = true ∧
      sendMessage up agentId (bodyField body "message") w1 = (.ok reply, w2) ∧
      (chat up body w).1 = ⟨200, jsonBody [("response", reply)]⟩) ∨
    ((chat up body w).1.status = 500 ∧
      ∃ e, (chat up body w).1.body.lookup "error" = some (.str e)) := by
  rcases chat_cases up body w hmsg with ⟨e, w1, _, h⟩ | ⟨a, w1, _, _, h⟩ |
      ⟨a, w1, e, w2, _, _, _, h⟩ | ⟨a, w1, reply, w2, hg, ht, hs, h⟩
  · right; rw [h]; exact ⟨rfl, _, rfl⟩
  · right; rw [h]; exact ⟨rfl, _, rfl⟩
  · right; rw [h]; exact ⟨rfl, _, rfl⟩
  · left; exact ⟨a, w1, reply, w2, hg, ht, hs, by rw [h]⟩

/-- Witness of C5: "hi" sent while the file names `agent-0` and the agent
answers "Hello". -/
theorem chat_response_shape_witness :
    truthy (bodyField [("message", .str "hi")] "message") = true ∧
    ((∃ agentId w1 reply w2,
        getOrCreateAgent upOk (worldWithFile "agent-0") = (.ok agentId, w1) ∧
        truthy agentId = true ∧
        sendMessage upOk agentId (bodyField [("message", .str "hi")] "message") w1
          = (.ok reply, w2) ∧
        (chat upOk [("message", .str "hi")] (worldWithFile "agent-0")).1
          = ⟨200, jsonBody [("response", reply)]⟩) ∨
      ((chat upOk [("message", .str "hi")] (worldWithFile "agent-0")).1.status = 500 ∧
        ∃ e, (chat upOk [("message", .str "hi")] (worldWithFile "agent-0")).1.body.lookup
          "error" = some (.str e))) :=
  ⟨rfl, chat_response_shape upOk [("message", .str "hi")] (worldWithFile "agent-0") rfl⟩

/-- Counterexample to C5: with the identifier file naming `agent-0`, the
message "hi" is answered with status 200 and an empty body when the agent
calls `send_message` with the arguments `{}`, and with status 200 and the
number 42 as `response` when the arguments are `{"message":42}`; neither body
has an `error` field. -/
theorem chat_ok_without_string_response :
    chat (upReply (replyOf [sendMessageCall (.str "\x7b\x7d")])) [("message", .str "hi")]
        (worldWithFile "agent-0")
      = (⟨200, []⟩, ⟨.present "agent-0", [],
          [.readFile, .postMessages (.str "agent-0") (.str "hi") "user"]⟩) ∧
    chat (upReply (replyOf [sendMessageCall (.str "\x7b\"message\":42\x7d")]))
        [("message", .str "hi")] (worldWithFile "agent-0")
      = (⟨200, [("response", .num 42)]⟩, ⟨.present "agent-0", [],
          [.readFile, .postMessages (.str "agent-0") (.str "hi") "user"]⟩) :=
  ⟨rfl, rfl⟩

/-! ## Adding a story -/

/-- The world after `summarizeStory`: one request was issued. -/
theorem summarizeStory_world (up : Upstream) (story : JVal) (w : World) :
    (summarizeStory up story w).2 = w.log (.completionsCreate story) := by
  cases hc : up.completionsCreate w.trace.length story with
  | none => simp [summarizeStory, hc]
  | some completion =>
    cases hx : completionContent completion <;> simp [summarizeStory, hc, hx]

/-- The result of `summarizeStory` once the request resolved. -/
theorem summarizeStory_resolved (up : Upstream) (story : JVal) (w : World) (completion : JVal)
    (hc : up.completionsCreate w.trace.length story = some completion) :
    (summarizeStory up story w).1 =
      match completionContent completion with
      | .error _ => .error "Failed to summarize story"
      | .ok content => .ok content := by
  cases hx : completionContent completion <;> simp [summarizeStory, hc, hx]

/-- `updateAgentMemory` leaves the identifier file and the store alone. -/
theorem updateAgentMemory_world (up : Upstream) (agentId summary : JVal) (w : World) :
    (updateAgentMemory up agentId summary w).2
      = w.log (.postMessages agentId summary "system") := by
  cases hp : up.postMessages w.trace.length agentId summary "system" <;>
    simp [updateAgentMemory, hp]

/-- `createAgentWithMemory` never touches the summary store. -/
theorem createAgentWithMemory_store (up : Upstream) (summary : JVal) (w : World) :
    (createAgentWithMemory up summary w).2.store = w.store := by
  rcases createAgentWithMemory_cases up summary w with h | ⟨data, id, _, _, h⟩ |
      ⟨data, id, text, _, _, _, _, h⟩ <;>
    simp [h]

/-- The outside calls of `createAgentWithMemory`: the request, then at most
the write of the file. -/
theorem createAgentWithMemory_trace (up : Upstream) (summary : JVal) (w : World) :
    (createAgentWithMemory up summary w).2.trace = w.trace ++ [.postAgents summary] ∨
    ∃ id, (createAgentWithMemory up summary w).2.trace
      = w.trace ++ [.postAgents summary, .writeFile id] := by
  rcases createAgentWithMemory_cases up summary w with h | ⟨data, id, _, _, h⟩ |
      ⟨data, id, text, _, _, _, _, h⟩
  · left; simp [h]
  · right; exact ⟨id, by simp [h]⟩
  · right; exact ⟨id, by simp [h]⟩

/-- The world after `getLatestSummary`: one query was issued. -/
theorem getLatestSummary_world (up : Upstream) (w : World) :
    (getLatestSummary up w).2 = w.log .dbOnce := by
  cases hq : up.dbOnce w.trace.length with
  | false => simp [getLatestSummary, hq]
  | true => cases hl : latest w.store <;> simp [getLatestSummary, hq, hl]

/-- `getOrCreateAgent` never touches the summary store, and all its outside
calls belong to the agent step. -/
theorem getOrCreateAgent_frame (up : Upstream) (w : World) :
    (getOrCreateAgent up w).2.store = w.store ∧
    ∃ evs, (getOrCreateAgent up w).2.trace = w.trace ++ evs ∧
      ∀ e ∈ evs, isAgentStep e = true := by
  cases hf : w.file with
  | present content =>
    simp only [getOrCreateAgent, hf]
    exact ⟨rfl, [.readFile], rfl, by simp [isAgentStep]⟩
  | unreadable =>
    simp only [getOrCreateAgent, hf]
    exact ⟨rfl, [.readFile], rfl, by simp [isAgentStep]⟩
  | absent =>
    have hw := getLatestSummary_world up (w.log .readFile)
    rcases hq : getLatestSummary up (w.log .readFile) with ⟨e | summary, w2⟩
    · rw [hq] at hw
      simp only [getOrCreateAgent, hf, hq]
      simp only at hw
      subst hw
      exact ⟨rfl, [.readFile, .dbOnce], by simp, by simp [isAgentStep]⟩
    · rw [hq] at hw
      simp only at hw
      subst hw
      simp only [getOrCreateAgent, hf, hq]
      cases ht : truthy summary with
      | false =>
        simp only [Bool.false_eq_true, if_false]
        exact ⟨rfl, [.readFile, .dbOnce], by simp, by simp [isAgentStep]⟩
      | true =>
        simp only [if_true]
        refine ⟨by rw [createAgentWithMemory_store]; rfl, ?_⟩
        rcases createAgentWithMemory_trace up summary ((w.log .readFile).log .dbOnce)
          with h | ⟨id, h⟩
        · exact ⟨[.readFile, .dbOnce, .postAgents summary], by simp [h], by simp [isAgentStep]⟩
        · exact ⟨[.readFile, .dbOnce, .postAgents summary, .writeFile id], by simp [h],
            by simp [isAgentStep]⟩

/-- `updateAgentWithNewStory` never touches the summary store, and all its
outside calls belong to the agent step. -/
theorem updateAgentWithNewStory_frame (up : Upstream) (newSummary : JVal) (w : World) :
    (updateAgentWithNewStory up newSummary w).2.store = w.store ∧
    ∃ evs, (updateAgentWithNewStory up newSummary w).2.trace = w.trace ++ evs ∧
      ∀ e ∈ evs, isAgentStep e = true := by
  obtain ⟨hstore, evs, htrace, hevs⟩ := getOrCreateAgent_frame up w
  rcases hg : getOrCreateAgent up w with ⟨e | agentId, w1⟩
  · rw [hg] at hstore htrace
    simp only [updateAgentWithNewStory, hg]
    exact ⟨hstore, evs, htrace, hevs⟩
  · rw [hg] at hstore htrace
    simp only at hstore htrace
    cases ht : truthy agentId with
    | true =>
      have hu := updateAgentMemory_world up agentId newSummary w1
      have key : (updateAgentWithNewStory up newSummary w).2
          = w1.log (.postMessages agentId newSummary "system") := by
        rcases hm : updateAgentMemory up agentId newSummary w1 with ⟨e | u, w2⟩ <;>
          · rw [hm] at hu
            simp only at hu
            simp [updateAgentWithNewStory, hg, ht, hm, hu]
      rw [key]
      refine ⟨hstore, evs ++ [.postMessages agentId newSummary "system"], by simp [htrace], ?_⟩
      intro e he
      rcases List.mem_append.mp he with h | h
      · exact hevs e h
      · rw [List.mem_singleton.mp h]; rfl
    | false =>
      have key : (updateAgentWithNewStory up newSummary w).2
          = (createAgentWithMemory up newSummary w1).2 := by
        rcases hm : createAgentWithMemory up newSummary w1 with ⟨e | u, w2⟩ <;>
          simp [updateAgentWithNewStory, hg, ht, hm]
      rw [key]
      refine ⟨by rw [createAgentWithMemory_store, hstore], ?_⟩
      rcases createAgentWithMemory_trace up newSummary w1 with h | ⟨id, h⟩
      · refine ⟨evs ++ [.postAgents newSummary], by simp [h, htrace], ?_⟩
        intro e he
        rcases List.mem_append.mp he with h | h
        · exact hevs e h
        · rw [List.mem_singleton.mp h]; rfl
      · refine ⟨evs ++ [.postAgents newSummary, .writeFile id], by simp [h, htrace], ?_⟩
        intro e he
        rcases List.mem_append.mp he with h | h
        · exact hevs e h
        · simp only [List.mem_cons, List.mem_singleton, List.not_mem_nil, or_false] at h
          rcases h with h | h <;> rw [h] <;> rfl

/-- When `summarizeStory` fails, `addNewStory` stops after the completion
request. -/
theorem addNewStory_summarize_fails (up : Upstream) (story : JVal) (w : World)
    (h : ∀ summary, (summarizeStory up story w).1 ≠ .ok summary) :
    addNewStory up story w
      = (.error "Failed to add new story", w.log (.completionsCreate story)) := by
  have hw := summarizeStory_world up story w
  rcases hs : summarizeStory up story w with ⟨e | summary, w1⟩
  · rw [hs] at hw
    simp only at hw
    simp [addNewStory, hs, hw]
  · exact absurd (by rw [hs]) (h summary)

/-- When the summary is produced and `set` rejects, `addNewStory` stops after
the attempt to store. -/
theorem addNewStory_store_fails (up : Upstream) (story summary : JVal) (w : World)
    (hsum : (summarizeStory up story w).1 = .ok summary)
    (hset : up.dbSet (w.trace.length + 1) = none) :
    addNewStory up story w
      = (.error "Failed to add new story",
          (w.log (.completionsCreate story)).log
            (.dbSet (up.pushKey (w.trace.length + 1)) summary)) := by
  have hw := summarizeStory_world up story w
  rcases hs : summarizeStory up story w with ⟨e | s, w1⟩
  · rw [hs] at hsum; simp at hsum
  · rw [hs] at hw hsum
    simp only [Except.ok.injEq] at hw hsum
    subst hw hsum
    simp [addNewStory, hs, storeStoryInDatabase, hset]

/-- When the summary is produced and stored, `addNewStory` runs the agent step
on the world holding the new child, and returns the key exactly when that
step succeeds. -/
theorem addNewStory_stored (up : Upstream) (story summary : JVal) (ts : Nat) (w : World)
    (hsum : (summarizeStory up story w).1 = .ok summary)
    (hset : up.dbSet (w.trace.length + 1) = some ts) :
    addNewStory up story w =
      (match (updateAgentWithNewStory up summary (storedWorld up story summary ts w)).1 with
        | .error _ => .error "Failed to add new story"
        | .ok _ => .ok (up.pushKey (w.trace.length + 1)),
       (updateAgentWithNewStory up summary (storedWorld up story summary ts w)).2) := by
  have hw := summarizeStory_world up story w
  rcases hs : summarizeStory up story w with ⟨e | s, w1⟩
  · rw [hs] at hsum; simp at hsum
  · rw [hs] at hw hsum
    simp only [Except.ok.injEq] at hw hsum
    subst hw hsum
    have hst : storeStoryInDatabase up s (w.log (.completionsCreate story))
        = (.ok (up.pushKey (w.trace.length + 1)), storedWorld up story s ts w) := by
      simp [storeStoryInDatabase, hset, storedWorld, World.log]
    simp only [addNewStory, hs, hst]
    rcases updateAgentWithNewStory up s (storedWorld up story s ts w) with ⟨e | u, w3⟩ <;> rfl

/-- C7, as the code has it: `summarizeStory` issues the completion request
and fails with `Failed to summarize story` when the request is rejected or
when `choices[0].message.content` cannot be read from the completion;
otherwise it returns that content unchanged, whatever it is (the empty string
included), and once the database accepts the write `addNewStory` has
appended exactly that content to the summary store. -/
theorem summarizeStory_returns_content (up : Upstream) (story : JVal) (w : World) :
    (summarizeStory up story w).2 = w.log (.completionsCreate story) ∧
    (up.completionsCreate w.trace.length story = none →
      (summarizeStory up story w).1 = .error "Failed to summarize story") ∧
    (∀ completion e, up.completionsCreate w.trace.length story = some completion →
      completionContent completion = .error e →
      (summarizeStory up story w).1 = .error "Failed to summarize story") ∧
    (∀ completion content, up.completionsCreate w.trace.length story = some completion →
      completionContent completion = .ok content →
      (summarizeStory up story w).1 = .ok content ∧
      ∀ ts, up.dbSet (w.trace.length + 1) = some ts →
        (addNewStory up story w).2.store
          = w.store.filter (fun e => e.key != up.pushKey (w.trace.length + 1))
            ++ [⟨up.pushKey (w.trace.length + 1), content, ts⟩]) := by
  refine ⟨summarizeStory_world up story w, ?_, ?_, ?_⟩
  · intro hc
    simp [summarizeStory, hc]
  · intro completion e hc hx
    rw [summarizeStory_resolved up story w completion hc, hx]
  · intro completion content hc hx
    have hsum : (summarizeStory up story w).1 = .ok content := by
      rw [summarizeStory_resolved up story w completion hc, hx]
    refine ⟨hsum, fun ts hset => ?_⟩
    rw [addNewStory_stored up story content ts w hsum hset]
    exact (updateAgentWithNewStory_frame up content (storedWorld up story content ts w)).1

/-- Witness of C7: a rejected request, a completion without choices, and a
completion with the content "A short tale.". -/
theorem summarizeStory_returns_content_witness :
    (summarizeStory { upOk with completionsCreate := fun _ _ => none }
        (.str "Once upon a time...") freshWorld).1 = .error "Failed to summarize story" ∧
    (summarizeStory { upOk with completionsCreate := fun _ _ => some (.obj [("choices", .arr [])]) }
        (.str "Once upon a time...") freshWorld).1 = .error "Failed to summarize story" ∧
    ((summarizeStory upOk (.str "Once upon a time...") freshWorld).1
        = .ok (.str "A short tale.") ∧
      ∀ ts, upOk.dbSet (freshWorld.trace.length + 1) = some ts →
        (addNewStory upOk (.str "Once upon a time...") freshWorld).2.store
          = freshWorld.store.filter
              (fun e => e.key != upOk.pushKey (freshWorld.trace.length + 1))
            ++ [⟨upOk.pushKey (freshWorld.trace.length + 1), .str "A short tale.", ts⟩]) :=
  ⟨(summarizeStory_returns_content { upOk with completionsCreate := fun _ _ => none }
      (.str "Once upon a time...") freshWorld).2.1 rfl,
    (summarizeStory_returns_content
      { upOk with completionsCreate := fun _ _ => some (.obj [("choices", .arr [])]) }
      (.str "Once upon a time...") freshWorld).2.2.1 (.obj [("choices", .arr [])]) "TypeError"
      rfl rfl,
    (summarizeStory_returns_content upOk (.str "Once upon a time...") freshWorld).2.2.2
      (completionOf (.str "A short tale.")) (.str "A short tale.") rfl rfl⟩

/-- Counterexample to C7: when the completion carries the empty string as
content, `summarizeStory` returns the empty string instead of failing, and
`POST /api/new-story` answers 200 having appended a child with the empty
summary to the store. -/
theorem summarizeStory_accepts_empty_content :
    summarizeStory { upOk with completionsCreate := fun _ _ => some (completionOf (.str "")) }
        (.str "Once upon a time...") (worldWithFile "agent-0")
      = (.ok (.str ""), ⟨.present "agent-0", [],
          [.completionsCreate (.str "Once upon a time...")]⟩) ∧
    newStory { upOk with completionsCreate := fun _ _ => some (completionOf (.str "")) }
        [("story", .str "Once upon a time...")] (worldWithFile "agent-0")
      = (⟨200, [("success", .bool true), ("summaryId", .str "-Nk1")]⟩,
          ⟨.present "agent-0", [⟨"-Nk1", .str "", 1700⟩],
            [.completionsCreate (.str "Once upon a time..."), .dbSet "-Nk1" (.str ""),
              .readFile, .postMessages (.str "agent-0") (.str "") "system"]⟩) :=
  ⟨rfl, rfl⟩

/-- C9: `addNewStory` summarizes, then stores, then runs the agent step, each
only after the one before succeeded.  If `summarizeStory` fails, the only
outside call is the completion request: nothing is stored and neither the
agent service nor the identifier file is touched.  If the summary is produced
and the database rejects the write, the only further call is that write.  If
the summary is stored, the agent step runs on the world that holds the new
child; every further outside call belongs to the agent step (none is a write
to the database), the store still ends with the new child when the agent step
fails, and the caller gets `Failed to add new story` in that case and the key
only when the agent step succeeds. -/
theorem addNewStory_order (up : Upstream) (story : JVal) (w : World) :
    ((∀ summary, (summarizeStory up story w).1 ≠ .ok summary) →
      addNewStory up story w
        = (.error "Failed to add new story", w.log (.completionsCreate story))) ∧
    (∀ summary, (summarizeStory up story w).1 = .ok summary →
      (up.dbSet (w.trace.length + 1) = none →
        addNewStory up story w
          = (.error "Failed to add new story",
              (w.log (.completionsCreate story)).log
                (.dbSet (up.pushKey (w.trace.length + 1)) summary))) ∧
      (∀ ts, up.dbSet (w.trace.length + 1) = some ts →
        (addNewStory up story w).2
          = (updateAgentWithNewStory up summary (storedWorld up story summary ts w)).2 ∧
        (addNewStory up story w).2.store
          = w.store.filter (fun e => e.key != up.pushKey (w.trace.length + 1))
            ++ [⟨up.pushKey (w.trace.length + 1), summary, ts⟩] ∧
        (∃ rest, (addNewStory up story w).2.trace
            = w.trace ++ [.completionsCreate story,
                .dbSet (up.pushKey (w.trace.length + 1)) summary] ++ rest ∧
          ∀ e ∈ rest, isAgentStep e = true) ∧
        (∀ e, (updateAgentWithNewStory up summary (storedWorld up story summary ts w)).1
            = .error e →
          (addNewStory up story w).1 = .error "Failed to add new story") ∧
        ((updateAgentWithNewStory up summary (storedWorld up story summary ts w)).1 = .ok () →
          (addNewStory up story w).1 = .ok (up.pushKey (w.trace.length + 1))))) := by
  refine ⟨addNewStory_summarize_fails up story w, fun summary hsum =>
    ⟨addNewStory_store_fails up story summary w hsum, fun ts hset => ?_⟩⟩
  have hadd := addNewStory_stored up story summary ts w hsum hset
  obtain ⟨hstore, rest, htrace, hrest⟩ :=
    updateAgentWithNewStory_frame up summary (storedWorld up story summary ts w)
  refine ⟨by rw [hadd], by rw [hadd]; exact hstore, ⟨rest, by rw [hadd]; exact htrace, hrest⟩,
    ?_, ?_⟩
  · intro e he
    rw [hadd, he]
  · intro hok
    rw [hadd, hok]

/-- Witness of C9: a rejected completion request; a rejected database write;
and a story stored while the agent service refuses the memory update. -/
theorem addNewStory_order_witness :
    addNewStory { upOk with completionsCreate := fun _ _ => none }
        (.str "Once upon a time...") (worldWithFile "agent-0")
      = (.error "Failed to add new story",
          ⟨.present "agent-0", [], [.completionsCreate (.str "Once upon a time...")]⟩) ∧
    addNewStory { upOk with dbSet := fun _ => none }
        (.str "Once upon a time...") (worldWithFile "agent-0")
      = (.error "Failed to add new story",
          ⟨.present "agent-0", [], [.completionsCreate (.str "Once upon a time..."),
            .dbSet "-Nk1" (.str "A short tale.")]⟩) ∧
    ((addNewStory { upOk with postMessages := fun _ _ _ _ => none }
          (.str "Once upon a time...") (worldWithFile "agent-0")).2.store
        = [⟨"-Nk1", .str "A short tale.", 1700⟩] ∧
      (addNewStory { upOk with postMessages := fun _ _ _ _ => none }
          (.str "Once upon a time...") (worldWithFile "agent-0")).1
        = .error "Failed to add new story") :=
  ⟨(addNewStory_order { upOk with completionsCreate := fun _ _ => none }
      (.str "Once upon a time...") (worldWithFile "agent-0")).1
      (fun _ h => Except.noConfusion h),
    ((addNewStory_order { upOk with dbSet := fun _ => none }
      (.str "Once upon a time...") (worldWithFile "agent-0")).2 (.str "A short tale.") rfl).1
      rfl,
    (((addNewStory_order { upOk with postMessages := fun _ _ _ _ => none }
      (.str "Once upon a time...") (worldWithFile "agent-0")).2 (.str "A short tale.")
      rfl).2 1700 rfl).2.1,
    (((addNewStory_order { upOk with postMessages := fun _ _ _ _ => none }
      (.str "Once upon a time...") (worldWithFile "agent-0")).2 (.str "A short tale.")
      rfl).2 1700 rfl).2.2.2.1 "Failed to update agent with new story" rfl⟩

/-! ## The error envelope -/

/-- Every failure of `addNewStory` carries the same message. -/
theorem addNewStory_error (up : Upstream) (story : JVal) (w : World) (e : String)
    (h : (addNewStory up story w).1 = .error e) : e = "Failed to add new story" := by
  unfold addNewStory at h
  rcases hs : summarizeStory up story w with ⟨e1 | summary, w1⟩
  · simp [hs] at h; exact h.symm
  · rcases hd : storeStoryInDatabase up summary w1 with ⟨e2 | key, w2⟩
    · simp [hs, hd] at h; exact h.symm
    · rcases hu : updateAgentWithNewStory up summary w2 with ⟨e3 | u, w3⟩
      · simp [hs, hd, hu] at h; exact h.symm
      · simp [hs, hd, hu] at h

/-- C8, as the code has it: a chat request that passed validation is
answered with status 200, or with status 500 and the body
`error: "Internal server error", details: d`, or, when `getOrCreateAgent`
returned no identifier, with status 500 and the body
`error: "Failed to create or retrieve an agent"` that has no `details`; a
new-story request that passed validation is answered with status 200 or with
status 500 and the body `error` and `details`, both `Failed to add new
story`. -/
theorem failure_envelope (up : Upstream) (body : List (String × JVal)) (w : World) :
    (truthy (bodyField body "message") = true →
      (chat up body w).1.status = 200 ∨
      (∃ d, (chat up body w).1
        = ⟨500, [("error", .str "Internal server error"), ("details", .str d)]⟩) ∨
      ((∃ agentId w1, getOrCreateAgent up w = (.ok agentId, w1) ∧ truthy agentId = false) ∧
        (chat up body w).1
          = ⟨500, [("error", .str "Failed to create or retrieve an agent")]⟩)) ∧
    (truthy (bodyField body "story") = true →
      (newStory up body w).1.status = 200 ∨
      (newStory up body w).1
        = ⟨500, [("error", .str "Failed to add new story"),
            ("details", .str "Failed to add new story")]⟩) := by
  constructor
  · intro hmsg
    rcases chat_cases up body w hmsg with ⟨e, w1, _, h⟩ | ⟨a, w1, hg, ht, h⟩ |
        ⟨a, w1, e, w2, _, _, _, h⟩ | ⟨a, w1, reply, w2, _, _, _, h⟩
    · right; left; exact ⟨e, by rw [h]⟩
    · right; right; exact ⟨⟨a, w1, hg, ht⟩, by rw [h]⟩
    · right; left; exact ⟨e, by rw [h]⟩
    · left; rw [h]
  · intro hstory
    rcases ha : addNewStory up (bodyField body "story") w with ⟨e | key, w1⟩
    · right
      have he := addNewStory_error up (bodyField body "story") w e (by rw [ha])
      subst he
      simp [newStory, hstory, ha, jsonBody, isUndefined]
    · left
      simp [newStory, hstory, ha]

/-- Witness of C8: one body with a message and a story, sent to a deployment
whose agent service rejects every request to the agent on file. -/
theorem failure_envelope_witness :
    (truthy (bodyField [("message", .str "hi"), ("story", .str "Once")] "message") = true ∧
      ((chat { upOk with postMessages := fun _ _ _ _ => none }
          [("message", .str "hi"), ("story", .str "Once")]
          (worldWithFile "agent-0")).1.status = 200 ∨
        (∃ d, (chat { upOk with postMessages := fun _ _ _ _ => none }
            [("message", .str "hi"), ("story", .str "Once")] (worldWithFile "agent-0")).1
          = ⟨500, [("error", .str "Internal server error"), ("details", .str d)]⟩) ∨
        ((∃ agentId w1, getOrCreateAgent { upOk with postMessages := fun _ _ _ _ => none }
              (worldWithFile "agent-0") = (.ok agentId, w1) ∧ truthy agentId = false) ∧
          (chat { upOk with postMessages := fun _ _ _ _ => none }
              [("message", .str "hi"), ("story", .str "Once")] (worldWithFile "agent-0")).1
            = ⟨500, [("error", .str "Failed to create or retrieve an agent")]⟩))) ∧
    (truthy (bodyField [("message", .str "hi"), ("story", .str "Once")] "story") = true ∧
      ((newStory { upOk with postMessages := fun _ _ _ _ => none }
          [("message", .str "hi"), ("story", .str "Once")]
          (worldWithFile "agent-0")).1.status = 200 ∨
        (newStory { upOk with postMessages := fun _ _ _ _ => none }
            [("message", .str "hi"), ("story", .str "Once")] (worldWithFile "agent-0")).1
          = ⟨500, [("error", .str "Failed to add new story"),
              ("details", .str "Failed to add new story")]⟩)) :=
  ⟨⟨rfl, (failure_envelope { upOk with postMessages := fun _ _ _ _ => none }
      [("message", .str "hi"), ("story", .str "Once")] (worldWithFile "agent-0")).1 rfl⟩,
    ⟨rfl, (failure_envelope { upOk with postMessages := fun _ _ _ _ => none }
      [("message", .str "hi"), ("story", .str "Once")] (worldWithFile "agent-0")).2 rfl⟩⟩

/-- Counterexample to C8: "hello" sent to a fresh deployment (no identifier
file, empty summary store) passes validation and fails with status 500, and
the body has an `error` field but no `details` field. -/
theorem chat_failure_without_details :
    truthy (bodyField [("message", .str "hello")] "message") = true ∧
    (chat upOk [("message", .str "hello")] freshWorld).1
      = ⟨500, [("error", .str "Failed to create or retrieve an agent")]⟩ ∧
    (chat upOk [("message", .str "hello")] freshWorld).1.body.lookup "details" = none :=
  ⟨rfl, rfl, rfl⟩

/-! ## Creating the agent on the first chat -/

/-- With no identifier file, a query that resolves and a truthy latest
summary, `getOrCreateAgent` creates an agent seeded with that summary. -/
theorem getOrCreateAgent_absent_latest (up : Upstream) (w : World) (entry : Entry)
    (hfile : w.file = .absent) (hlatest : latest w.store = some entry)
    (hsum : truthy entry.summary = true) (hquery : up.dbOnce (w.trace.length + 1) = true) :
    getOrCreateAgent up w
      = createAgentWithMemory up entry.summary ((w.log .readFile).log .dbOnce) := by
  simp [getOrCreateAgent, hfile, getLatestSummary, hquery, hlatest, hsum]

/-- The world after a chat request whose agent was resolved: the world after
the resolution plus the user message. -/
theorem chat_world_sent (up : Upstream) (body : List (String × JVal)) (w w1 : World)
    (agentId : JVal) (hmsg : truthy (bodyField body "message") = true)
    (hg : getOrCreateAgent up w = (.ok agentId, w1)) (ht : truthy agentId = true) :
    (chat up body w).2 = w1.log (.postMessages agentId (bodyField body "message") "user") := by
  have hs := sendMessage_world up agentId (bodyField body "message") w1
  rcases hr : sendMessage up agentId (bodyField body "message") w1 with ⟨e | reply, w2⟩ <;>
  · rw [hr] at hs
    simp only at hs
    simp [chat, hmsg, hg, ht, hr, hs]

/-- The world after a chat request whose agent resolution threw. -/
theorem chat_world_thrown (up : Upstream) (body : List (String × JVal)) (w w1 : World)
    (e : String) (hmsg : truthy (bodyField body "message") = true)
    (hg : getOrCreateAgent up w = (.error e, w1)) :
    (chat up body w).2 = w1 := by
  simp [chat, hmsg, hg]

/-- The world after a chat request whose agent resolution gave no identifier. -/
theorem chat_world_unresolved (up : Upstream) (body : List (String × JVal)) (w w1 : World)
    (agentId : JVal) (hmsg : truthy (bodyField body "message") = true)
    (hg : getOrCreateAgent up w = (.ok agentId, w1)) (ht : truthy agentId = false) :
    (chat up body w).2 = w1 := by
  simp [chat, hmsg, hg, ht]

/-- Only the empty store has no latest child. -/
theorem latest_eq_none (es : List Entry) (h : latest es = none) : es = [] := by
  cases es with
  | nil => rfl
  | cons x xs =>
    unfold latest at h
    cases hx : latest xs with
    | none => rw [hx] at h; exact Option.noConfusion h
    | some y =>
      rw [hx] at h
      by_cases hs : sortsAfter x y = true <;> simp [hs] at h

/-- The child `latest` selects is a child of the store. -/
theorem latest_mem (es : List Entry) (m : Entry) (h : latest es = some m) : m ∈ es := by
  induction es generalizing m with
  | nil => simp [latest] at h
  | cons e rest ih =>
    unfold latest at h
    cases hl : latest rest with
    | none =>
      rw [hl] at h
      simp only [Option.some.injEq] at h
      rw [← h]
      exact List.mem_cons_self e rest
    | some m1 =>
      rw [hl] at h
      by_cases hs : sortsAfter e m1 = true
      · simp [hs] at h
        rw [← h]
        exact List.mem_cons_of_mem e (ih m1 hl)
      · simp [hs] at h
        rw [← h]
        exact List.mem_cons_self e rest

/-- No child of the store has a later timestamp than the one `latest`
selects. -/
theorem latest_max (es : List Entry) (m : Entry) (h : latest es = some m) :
    ∀ e ∈ es, e.timestamp ≤ m.timestamp := by
  induction es generalizing m with
  | nil => simp [latest] at h
  | cons e rest ih =>
    unfold latest at h
    cases hl : latest rest with
    | none =>
      rw [hl] at h
      simp only [Option.some.injEq] at h
      intro x hx
      rw [latest_eq_none rest hl] at hx
      rw [List.mem_singleton.mp hx, h]
    | some m1 =>
      rw [hl] at h
      have ih1 := ih m1 hl
      by_cases hs : sortsAfter e m1 = true
      · have hle : e.timestamp ≤ m1.timestamp := by
          simp only [sortsAfter, Bool.or_eq_true, decide_eq_true_eq, Bool.and_eq_true,
            beq_iff_eq] at hs
          rcases hs with hs | ⟨hs, _⟩
          · exact Nat.le_of_lt hs
          · exact Nat.le_of_eq hs
        simp [hs] at h
        rw [← h]
        intro x hx
        rcases List.mem_cons.mp hx with hx | hx
        · rw [hx]; exact hle
        · exact ih1 x hx
      · have hle : m1.timestamp ≤ e.timestamp := by
          simp only [sortsAfter, Bool.or_eq_true, decide_eq_true_eq, Bool.and_eq_true,
            beq_iff_eq, not_or] at hs
          exact Nat.le_of_not_lt hs.1
        simp [hs] at h
        rw [← h]
        intro x hx
        rcases List.mem_cons.mp hx with hx | hx
        · rw [hx]
        · exact Nat.le_trans (ih1 x hx) hle

/-- C3, as the code has it: a chat request with a truthy (so non-empty)
message, made when the identifier file does not exist, the query of the
summary store resolves and the latest stored summary (the summary of a child
of the store that no other child exceeds in timestamp) is truthy (a
non-empty text), issues exactly one `POST /api/agents`, seeded with that
latest summary.  The outside calls are the read, the query and that request,
then possibly the write of the identifier the agent service returned, then
possibly the user message; the message is only ever sent after that
identifier was handed to `fs.writeFile` and the write resolved, it is sent to
that same identifier, and the file then holds the identifier when it is a
string.  When the agent service returns a non-empty string identifier and the
write succeeds, all five calls happen and the file holds the identifier. -/
theorem chat_creates_agent_from_latest (up : Upstream) (body : List (String × JVal))
    (w : World) (entry : Entry)
    (hmsg : truthy (bodyField body "message") = true)
    (hfile : w.file = .absent) (hlatest : latest w.store = some entry)
    (hsum : truthy entry.summary = true) (hquery : up.dbOnce (w.trace.length + 1) = true) :
    (entry ∈ w.store ∧ ∀ e ∈ w.store, e.timestamp ≤ entry.timestamp) ∧
    ((chat up body w).2.trace = w.trace ++ [.readFile, .dbOnce, .postAgents entry.summary] ∨
      (∃ data id, up.postAgents (w.trace.length + 2) entry.summary = some data ∧
        agentStateId data = .ok id ∧
        (chat up body w).2.trace
          = w.trace ++ [.readFile, .dbOnce, .postAgents entry.summary, .writeFile id]) ∨
      (∃ data id, up.postAgents (w.trace.length + 2) entry.summary = some data ∧
        agentStateId data = .ok id ∧
        up.writeFile (w.trace.length + 3) = true ∧
        (∀ text, id = .str text → (chat up body w).2.file = .present text) ∧
        (chat up body w).2.trace
          = w.trace ++ [.readFile, .dbOnce, .postAgents entry.summary, .writeFile id,
              .postMessages id (bodyField body "message") "user"])) ∧
    (∀ data id, up.postAgents (w.trace.length + 2) entry.summary = some data →
      agentStateId data = .ok (.str id) → up.writeFile (w.trace.length + 3) = true →
      id ≠ "" →
      (chat up body w).2
        = ⟨.present id, w.store,
            w.trace ++ [.readFile, .dbOnce, .postAgents entry.summary, .writeFile (.str id),
              .postMessages (.str id) (bodyField body "message") "user"]⟩) := by
  have hg := getOrCreateAgent_absent_latest up w entry hfile hlatest hsum hquery
  have hlen : ((w.log .readFile).log .dbOnce).trace.length = w.trace.length + 2 := by simp
  refine ⟨⟨latest_mem w.store entry hlatest, latest_max w.store entry hlatest⟩, ?_, ?_⟩
  · rcases createAgentWithMemory_cases up entry.summary ((w.log .readFile).log .dbOnce)
      with h | ⟨data, id, hpost, hid, h⟩ | ⟨data, id, content, hpost, hid, htext, hwrite, h⟩
    · left
      rw [chat_world_thrown up body w _ _ hmsg (hg.trans h)]
      simp
    · right; left
      rw [hlen] at hpost
      refine ⟨data, id, hpost, hid, ?_⟩
      rw [chat_world_thrown up body w _ _ hmsg (hg.trans h)]
      simp
    · rw [hlen] at hpost htext hwrite
      cases ht : truthy id with
      | false =>
        right; left
        refine ⟨data, id, hpost, hid, ?_⟩
        rw [chat_world_unresolved up body w _ _ hmsg (hg.trans h) ht]
        simp
      | true =>
        right; right
        refine ⟨data, id, hpost, hid, hwrite, ?_, ?_⟩
        · intro text hid2
          rw [hid2] at htext
          simp only [writtenText, Option.some.injEq] at htext
          rw [chat_world_sent up body w _ _ hmsg (hg.trans h) ht, htext]
          simp
        · rw [chat_world_sent up body w _ _ hmsg (hg.trans h) ht]
          simp
  · intro data id hpost hid hwrite hne
    have hc := createAgentWithMemory_ok up entry.summary ((w.log .readFile).log .dbOnce)
      data id (by rw [hlen]; exact hpost) hid (by rw [hlen]; exact hwrite)
    have ht : truthy (.str id) = true := (truthy_str_iff id).mpr hne
    rw [chat_world_sent up body w _ _ hmsg (hg.trans hc) ht]
    simp [World.log]

/-- Witness of C3: "hi" sent when no identifier file exists and the store
holds three summaries, the newest of them in the middle. -/
theorem chat_creates_agent_from_latest_witness :
    truthy (bodyField [("message", .str "hi")] "message") = true ∧
    latest [(⟨"-Nk0", .str "An old tale.", 1600⟩ : Entry),
        ⟨"-Nk2", .str "The newest tale.", 1800⟩, ⟨"-Nk1", .str "A middle tale.", 1700⟩]
      = some ⟨"-Nk2", .str "The newest tale.", 1800⟩ ∧
    (chat upOk [("message", .str "hi")]
        (worldWithStore [⟨"-Nk0", .str "An old tale.", 1600⟩,
          ⟨"-Nk2", .str "The newest tale.", 1800⟩, ⟨"-Nk1", .str "A middle tale.", 1700⟩])).2
      = ⟨.present "agent-1", [⟨"-Nk0", .str "An old tale.", 1600⟩,
            ⟨"-Nk2", .str "The newest tale.", 1800⟩, ⟨"-Nk1", .str "A middle tale.", 1700⟩],
          [.readFile, .dbOnce, .postAgents (.str "The newest tale."),
            .writeFile (.str "agent-1"),
            .postMessages (.str "agent-1") (.str "hi") "user"]⟩ :=
  ⟨rfl, rfl,
    (chat_creates_agent_from_latest upOk [("message", .str "hi")]
      (worldWithStore [⟨"-Nk0", .str "An old tale.", 1600⟩,
        ⟨"-Nk2", .str "The newest tale.", 1800⟩, ⟨"-Nk1", .str "A middle tale.", 1700⟩])
      ⟨"-Nk2", .str "The newest tale.", 1800⟩ rfl rfl rfl rfl rfl).2.2
      (.obj [("agent_state", .obj [("id", .str "agent-1")])]) "agent-1" rfl rfl rfl
      (by decide)⟩

/-- Counterexample to C3: no identifier file exists and the summary store
holds a summary, yet no agent is created and the request is answered 500:
once when the latest stored summary is the empty text, once when the query of
the store is rejected. -/
theorem chat_with_summary_creates_no_agent :
    chat upOk [("message", .str "hi")] (worldWithStore [⟨"-Nk0", .str "", 1600⟩])
      = (⟨500, [("error", .str "Failed to create or retrieve an agent")]⟩,
          ⟨.absent, [⟨"-Nk0", .str "", 1600⟩], [.readFile, .dbOnce]⟩) ∧
    chat { upOk with dbOnce := fun _ => false } [("message", .str "hi")]
        (worldWithStore [⟨"-Nk0", .str "An old tale.", 1600⟩])
      = (⟨500, [("error", .str "Internal server error"),
            ("details", .str "Failed to fetch latest summary")]⟩,
          ⟨.absent, [⟨"-Nk0", .str "An old tale.", 1600⟩], [.readFile, .dbOnce]⟩) :=
  ⟨rfl, rfl⟩

/-- An identifier that is an array is written item by item and returned as
the array: the chat request sends the message to the array. -/
theorem chat_with_array_identifier :
    chat upArrayIdentifier [("message", .str "hi")] (worldWithStore [⟨"-Nk0", .str "An old tale.", 1600⟩])
      = (⟨200, [("response", .str "Hello")]⟩,
          ⟨.present "agent-7", [⟨"-Nk0", .str "An old tale.", 1600⟩],
            [.readFile, .dbOnce, .postAgents (.str "An old tale."),
              .writeFile (.arr [.str "agent-", .str "7"]),
              .postMessages (.arr [.str "agent-", .str "7"]) (.str "hi") "user"]⟩) :=
  rfl

/-! ## A story added successfully -/

/-- A new-story request answered 200 is one whose `addNewStory` returned. -/
theorem newStory_ok (up : Upstream) (body : List (String × JVal)) (w : World)
    (hstory : truthy (bodyField body "story") = true)
    (hok : (newStory up body w).1.status = 200) :
    ∃ key w1, addNewStory up (bodyField body "story") w = (.ok key, w1) ∧
      newStory up body w
        = (⟨200, [("success", .bool true), ("summaryId", .str key)]⟩, w1) := by
  rcases ha : addNewStory up (bodyField body "story") w with ⟨e | key, w1⟩
  · simp [newStory, hstory, ha] at hok
  · exact ⟨key, w1, rfl, by simp [newStory, hstory, ha, jsonBody, isUndefined]⟩

/-- With the identifier file present, the agent step reads the file and then
either updates the agent named in it or, when the content is blank, creates
an agent seeded with the new summary. -/
theorem updateAgentWithNewStory_present (up : Upstream) (newSummary : JVal) (w : World)
    (content : String) (hfile : w.file = .present content)
    (hok : (updateAgentWithNewStory up newSummary w).1 = .ok ()) :
    (jsTrim content ≠ "" ∧
      (updateAgentWithNewStory up newSummary w).2.trace
        = w.trace ++ [.readFile, .postMessages (.str (jsTrim content)) newSummary "system"]) ∨
    (jsTrim content = "" ∧
      ∃ id, (updateAgentWithNewStory up newSummary w).2.trace
        = w.trace ++ [.readFile, .postAgents newSummary, .writeFile id]) := by
  have hg := getOrCreateAgent_present up w content hfile
  cases ht : truthy (.str (jsTrim content)) with
  | true =>
    left
    refine ⟨(truthy_str_iff _).mp ht, ?_⟩
    have hu := updateAgentMemory_world up (.str (jsTrim content)) newSummary (w.log .readFile)
    rcases hm : updateAgentMemory up (.str (jsTrim content)) newSummary (w.log .readFile)
      with ⟨e | u, w2⟩ <;>
    · rw [hm] at hu
      simp only at hu
      simp [updateAgentWithNewStory, hg, ht, hm, hu]
  | false =>
    right
    have hempty : jsTrim content = "" := by
      by_contra hne
      rw [(truthy_str_iff _).mpr hne] at ht
      exact Bool.noConfusion ht
    refine ⟨hempty, ?_⟩
    rcases createAgentWithMemory_cases up newSummary (w.log .readFile)
      with h | ⟨data, id, _, _, h⟩ | ⟨data, id, text, _, _, _, _, h⟩
    · simp [updateAgentWithNewStory, hg, ht, h] at hok
    · simp [updateAgentWithNewStory, hg, ht, h] at hok
    · exact ⟨id, by simp [updateAgentWithNewStory, hg, ht, h]⟩

/-- A new-story request with a truthy story that is answered 200 has appended
to the summary store exactly the text `summarizeStory` returned and carries
as `summaryId` the key generated by the database push, whatever the state of
the identifier file.  When the identifier file exists, it has made exactly
one request to the agent service after reading the file: the memory update
of the agent named in the file when the trimmed content is not empty, the
creation of an agent seeded with the new summary when the content is
blank. -/
theorem newStory_success (up : Upstream)
    (body : List (String × JVal)) (w : World)
    (hstory : truthy (bodyField body "story") = true)
    (hok : (newStory up body w).1.status = 200) :
    ∃ summary ts,
      (summarizeStory up (bodyField body "story") w).1 = .ok summary ∧
      up.dbSet (w.trace.length + 1) = some ts ∧
      (newStory up body w).1
        = ⟨200, [("success", .bool true),
            ("summaryId", .str (up.pushKey (w.trace.length + 1)))]⟩ ∧
      (newStory up body w).2.store
        = w.store.filter (fun e => e.key != up.pushKey (w.trace.length + 1))
          ++ [⟨up.pushKey (w.trace.length + 1), summary, ts⟩] ∧
      (∀ content, w.file = .present content →
        ((jsTrim content ≠ "" ∧
            (newStory up body w).2.trace
              = w.trace ++ [.completionsCreate (bodyField body "story"),
                  .dbSet (up.pushKey (w.trace.length + 1)) summary, .readFile,
                  .postMessages (.str (jsTrim content)) summary "system"]) ∨
          (jsTrim content = "" ∧
            ∃ id, (newStory up body w).2.trace
              = w.trace ++ [.completionsCreate (bodyField body "story"),
                  .dbSet (up.pushKey (w.trace.length + 1)) summary, .readFile,
                  .postAgents summary, .writeFile id]))) := by
  obtain ⟨key, w1, hadd, hnew⟩ := newStory_ok up body w hstory hok
  cases hs : (summarizeStory up (bodyField body "story") w).1 with
  | error e =>
    have := addNewStory_summarize_fails up (bodyField body "story") w
      (fun summary h => by rw [hs] at h; exact Except.noConfusion h)
    rw [hadd] at this
    simp at this
  | ok summary =>
    cases hd : up.dbSet (w.trace.length + 1) with
    | none =>
      have := addNewStory_store_fails up (bodyField body "story") summary w hs hd
      rw [hadd] at this
      simp at this
    | some ts =>
      have hst := addNewStory_stored up (bodyField body "story") summary ts w hs hd
      rw [hadd] at hst
      have hw1 : w1 = (updateAgentWithNewStory up summary
          (storedWorld up (bodyField body "story") summary ts w)).2 := by
        rw [Prod.mk.injEq] at hst
        exact hst.2
      have hres : (updateAgentWithNewStory up summary
          (storedWorld up (bodyField body "story") summary ts w)).1 = .ok () ∧
          key = up.pushKey (w.trace.length + 1) := by
        rw [Prod.mk.injEq] at hst
        have h1 := hst.1
        cases hu : (updateAgentWithNewStory up summary
            (storedWorld up (bodyField body "story") summary ts w)).1 with
        | error e => rw [hu] at h1; simp at h1
        | ok u => rw [hu] at h1; simp at h1; exact ⟨rfl, h1⟩
      refine ⟨summary, ts, rfl, rfl, ?_, ?_, ?_⟩
      · rw [hnew, hres.2]
      · rw [hnew]
        simp only
        rw [hw1]
        exact (updateAgentWithNewStory_frame up summary
          (storedWorld up (bodyField body "story") summary ts w)).1
      · intro content hfile
        rw [hnew]
        simp only
        rw [hw1]
        rcases updateAgentWithNewStory_present up summary
          (storedWorld up (bodyField body "story") summary ts w) content hfile hres.1
          with ⟨hne, h⟩ | ⟨he, id, h⟩
        · left
          exact ⟨hne, by rw [h]; simp [storedWorld]⟩
        · right
          exact ⟨he, id, by rw [h]; simp [storedWorld]⟩

/-- The story "Once upon a time..." summarized to "A short tale." while the
identifier file names `agent-0`: the summary is stored under the pushed key
and the agent on file gets the one memory update. -/
theorem newStory_success_example :
    newStory upOk [("story", .str "Once upon a time...")] (worldWithFile "agent-0\n")
      = (⟨200, [("success", .bool true), ("summaryId", .str "-Nk1")]⟩,
          ⟨.present "agent-0\n", [⟨"-Nk1", .str "A short tale.", 1700⟩],
            [.completionsCreate (.str "Once upon a time..."),
              .dbSet "-Nk1" (.str "A short tale."), .readFile,
              .postMessages (.str "agent-0") (.str "A short tale.") "system"]⟩) :=
  rfl

/-- C1, where the code goes wrong: the story "Once upon a time..." sent to
`POST /api/new-story` while no identifier file exists and the summary store
is empty, with every outside call succeeding and the summarizer answering
"A short tale.".  The summary is stored and its key returned as `summaryId`,
but the agent service gets two requests, not one: `getOrCreateAgent` finds
the summary that was just stored and creates an agent seeded with it, and
`updateAgentWithNewStory`, handed the new identifier, then sends the memory
update with the same summary. -/
theorem newStory_without_file_calls_agent_twice :
    newStory upOk [("story", .str "Once upon a time...")] freshWorld
      = (⟨200, [("success", .bool true), ("summaryId", .str "-Nk1")]⟩,
          ⟨.present "agent-1", [⟨"-Nk1", .str "A short tale.", 1700⟩],
            [.completionsCreate (.str "Once upon a time..."),
              .dbSet "-Nk1" (.str "A short tale."), .readFile, .dbOnce,
              .postAgents (.str "A short tale."), .writeFile (.str "agent-1"),
              .postMessages (.str "agent-1") (.str "A short tale.") "system"]⟩) :=
  rfl

end MemGPTs
